import Mathlib

/-!
Verification of the CharmHealth MCP server API client
(`src/api/api_client.py`) and telemetry response classifier
(`src/telemetry/tool_metrics.py`) against their specification.

The Python code is shallowly embedded: the stateful async client becomes
explicit state passing over `SeqState`; the outcome of each HTTP dispatch
and of each token-refresh POST is supplied by environment functions
(`Nat → Outcome`, `Nat → RefreshRes`) indexed by how many such calls have
happened so far; wall-clock time is a frozen `now : Int` (the code only
compares times, seconds are integral in every claim); raised exceptions
become an explicit `exc` result constructor threaded with the state.
-/

namespace CharmMCP

/-- JSON-like values: parsed response bodies and the structured error
dicts the client returns. -/
inductive JValue where
  | str (s : String)
  | int (n : Int)
  | arr (l : List JValue)
  | obj (l : List (String × JValue))
  | null

/-- The `{"error": msg}` dict the client returns on failures. -/
def errObj (msg : String) : JValue :=
  JValue.obj [("error", JValue.str msg)]

/-- Does a JSON object carry an "error" key (the shape of every
structured failure value returned by `_make_request`)? -/
def hasErrorKey (v : JValue) : Bool :=
  match v with
  | JValue.obj l => l.any (fun p => p.1 == "error")
  | _ => false

/-- State of one client instance plus the process-wide shared cache for its
identity, plus instrumentation logs.  Fields mirror
`CharmHealthAPIClient`: `authToken`/`tokenExpiresAt` are the local
instance fields `_auth_token`/`_token_expires_at`; `shared` is
`_shared_token_cache[key]` for this identity's key.  The log fields
record observable effects: `refreshCount` counts POSTs to the token
endpoint, `attempts` counts entries into the dispatch block
(`start_api_call`), `sleeps` the durations passed to `asyncio.sleep`,
`records`/`endCalls` the success flags of `record_api_call`/`end_api_call`
events, `metricLabels` the endpoint labels given to the metrics calls,
and `httpEndpoints` the endpoints actually dispatched over HTTP. -/
structure SeqState where
  authToken : Option Nat := none
  tokenExpiresAt : Int := 0
  shared : Option (Nat × Int) := none
  refreshCount : Nat := 0
  attempts : Nat := 0
  sleeps : List Nat := []
  records : List Bool := []
  endCalls : List Bool := []
  metricLabels : List String := []
  httpEndpoints : List String := []
deriving DecidableEq, Repr

/-- The empty initial state: fresh client instance, empty shared cache. -/
def initState : SeqState := {}

/-- Outcome of one POST to the token endpoint, as seen by
`_refresh_token`: a 2xx JSON body with an `access_token` and optional
`expires_in` (`ok`), a non-2xx status (`errStatus`, making
`raise_for_status` throw), or a 2xx body missing `access_token`
(`errNoToken`, making the code raise `ValueError`). -/
inductive RefreshRes where
  | ok (token : Nat) (expiresIn : Option Int)
  | errStatus (code : Nat)
  | errNoToken (text : String)
deriving DecidableEq, Repr

/-- An exception escaping `_refresh_token` (and hence
`_get_valid_token`): the re-raised `HTTPStatusError` from
`raise_for_status`, or the `ValueError` for a missing `access_token`. -/
inductive RefreshErr where
  | httpStatus (code : Nat)
  | missingAccessToken (text : String)
deriving DecidableEq, Repr

/-- The OAuth2 form parameters `_refresh_token` POSTs to the token
endpoint (api_client.py lines 117-123). -/
def refreshRequestParams (refreshTok clientId clientSecret redirectUri : String) :
    List (String × String) :=
  [("refresh_token", refreshTok),
   ("client_id", clientId),
   ("client_secret", clientSecret),
   ("redirect_uri", redirectUri),
   ("grant_type", "refresh_token")]

/-- Embedding of `_refresh_token` (api_client.py lines 114-157) given the outcome `r`
of its POST.  The POST is counted in `refreshCount` unconditionally (it
happened before any outcome is inspected).  On success the new expiry is
`now + expires_in` with `expires_in` defaulting to 3600, and the token
is written to both the local fields and the shared cache; on failure the
exception propagates (no retry, no conversion to a value). -/
def refreshToken (now : Int) (r : RefreshRes) (s : SeqState) :
    Except RefreshErr Nat × SeqState :=
  let s1 : SeqState := { s with refreshCount := s.refreshCount + 1 }
  match r with
  | RefreshRes.errStatus code => (Except.error (RefreshErr.httpStatus code), s1)
  | RefreshRes.errNoToken text => (Except.error (RefreshErr.missingAccessToken text), s1)
  | RefreshRes.ok tok expIn =>
      let expiresAt : Int := now + expIn.getD 3600
      (Except.ok tok,
       { s1 with authToken := some tok, tokenExpiresAt := expiresAt,
                 shared := some (tok, expiresAt) })

/-- The freshness test used everywhere in `_get_valid_token`:
`current_time < expires_at - 300`. -/
def tokenFresh (now : Int) (expiresAt : Int) : Bool :=
  decide (now < expiresAt - 300)

/-- The cache-reading phase of `_get_valid_token` restricted to the
shared cache (api_client.py lines 94-99): on a fresh shared entry the
local fields are updated and the token returned. -/
def readShared (now : Int) (s : SeqState) : Option (Nat × SeqState) :=
  match s.shared with
  | some (t, exp) =>
      if tokenFresh now exp then
        some (t, { s with authToken := some t, tokenExpiresAt := exp })
      else none
  | none => none

/-- The cache-reading phase of `_get_valid_token` (local fields first,
then the shared cache; api_client.py lines 91-99). -/
def readCaches (now : Int) (s : SeqState) : Option (Nat × SeqState) :=
  match s.authToken with
  | some t => if tokenFresh now s.tokenExpiresAt then some (t, s) else readShared now s
  | none => readShared now s

/-- Embedding of `_get_valid_token` (api_client.py lines 87-111) with a frozen clock:
read caches, and on a miss acquire the per-identity lock, re-check both
caches, and refresh.  `renv k` supplies the outcome of the k-th refresh
POST of the run. -/
def getValidToken (now : Int) (renv : Nat → RefreshRes) (s : SeqState) :
    Except RefreshErr Nat × SeqState :=
  match readCaches now s with
  | some (t, s1) => (Except.ok t, s1)
  | none =>
      match readCaches now s with
      | some (t, s1) => (Except.ok t, s1)
      | none => refreshToken now (renv s.refreshCount) s

/-- Model of `re.sub(r'/[0-9]\x7b18\x7d$', '', endpoint)`: drop a trailing
slash-plus-18-digit segment (at most one match is possible at `$`). -/
def stripTrailingId (l : List Char) : List Char :=
  if 19 ≤ l.length then
    match l.drop (l.length - 19) with
    | '/' :: ds => if ds.all Char.isDigit then l.take (l.length - 19) else l
    | _ => l
  else l

/-- Helper: if `l` starts with `/`, 18 digits, `/`, return the remainder after
the trailing slash (the whole 20-character match is consumed, as
`re.sub` consumes non-overlapping matches left to right). -/
def midIdSplit (l : List Char) : Option (List Char) :=
  match l with
  | '/' :: rest =>
      if (rest.take 18).length = 18 ∧ (rest.take 18).all Char.isDigit then
        match rest.drop 18 with
        | '/' :: tail => some tail
        | _ => none
      else none
  | _ => none

/-- Model of `re.sub(r'/[0-9]\x7b18\x7d/', '/', s)`: left-to-right non-overlapping
replacement; scanning resumes after each consumed match, so the
replacement `/` is not itself rescanned.  Fuel is the list length, which
bounds the number of scan positions. -/
def replaceMidIds : Nat → List Char → List Char
  | 0, l => l
  | _ + 1, [] => []
  | fuel + 1, c :: rest =>
      match midIdSplit (c :: rest) with
      | some tail => '/' :: replaceMidIds fuel tail
      | none => c :: replaceMidIds fuel rest

/-- The endpoint sanitization of `_make_request` (api_client.py lines
165-167): strip a trailing 18-digit ID segment, then collapse mid-path
18-digit ID segments.  Used only for metrics labels, never for routing. -/
def cleanEndpoint (endpoint : String) : String :=
  let l1 := stripTrailingId endpoint.data
  String.mk (replaceMidIds l1.length l1)

/-- Outcome of one HTTP dispatch attempt, as seen by the try-block of
`_make_request`: a 2xx response with JSON body `success`; an
`httpx.HTTPStatusError` with status code and response text; an
`httpx.RequestError` (network/transport failure); or any other exception
(e.g. a JSON decode failure), carrying its message. -/
inductive Outcome where
  | success (body : JValue)
  | statusErr (code : Nat) (body : String)
  | netErr (msg : String)
  | otherExc (msg : String)

/-- Result of `_make_request`: a returned dict, or an exception
propagating to the caller (only token-refresh failures escape). -/
inductive MRes where
  | ok (v : JValue)
  | exc (e : RefreshErr)

/-- Is `method` one of the four verbs the match statement dispatches? -/
def supportedMethod (method : String) : Bool :=
  method == "GET" || method == "POST" || method == "PUT" || method == "DELETE"

/-- Embedding of `_make_request` (api_client.py lines 159-237).  `env k` is the
outcome of the k-th HTTP dispatch of the run, `renv k` of the k-th
refresh POST.  Every path through the Python try/except/finally is
mirrored: token acquisition before the try (its exception escapes),
`start_api_call` with the sanitized label, dispatch to the original
endpoint, the three except arms with their `record_api_call` events, the
401-invalidate-and-retry and backoff-and-retry recursions, and the
`finally`'s `end_api_call`, which for a retrying frame runs after the
recursive call returns and also when that call raises. -/
def makeRequest (maxRetries : Nat) (now : Int) (renv : Nat → RefreshRes)
    (env : Nat → Outcome) (method endpoint : String) (rc : Nat) (s : SeqState) :
    MRes × SeqState :=
  match getValidToken now renv s with
  | (Except.error e, s1) => (MRes.exc e, s1)
  | (Except.ok _tok, s1) =>
      let ce := cleanEndpoint endpoint
      let k := s1.attempts
      let s2 : SeqState :=
        { s1 with attempts := k + 1, metricLabels := s1.metricLabels ++ [ce] }
      if supportedMethod method then
        let s3 : SeqState := { s2 with httpEndpoints := s2.httpEndpoints ++ [endpoint] }
        match env k with
        | Outcome.success body =>
            (MRes.ok body,
             { s3 with records := s3.records ++ [true], endCalls := s3.endCalls ++ [true] })
        | Outcome.statusErr code btext =>
            let s4 : SeqState := { s3 with records := s3.records ++ [false] }
            if h : code = 401 ∧ rc < maxRetries then
              let s5 : SeqState :=
                { s4 with authToken := none, tokenExpiresAt := 0, shared := none }
              let r := makeRequest maxRetries now renv env method endpoint (rc + 1) s5
              (r.1, { r.2 with endCalls := r.2.endCalls ++ [false] })
            else
              (MRes.ok (errObj ("HTTP " ++ toString code ++ ": " ++ btext)),
               { s4 with endCalls := s4.endCalls ++ [false] })
        | Outcome.netErr msg =>
            let s4 : SeqState := { s3 with records := s3.records ++ [false] }
            if h : rc < maxRetries then
              let s5 : SeqState := { s4 with sleeps := s4.sleeps ++ [2 ^ rc] }
              let r := makeRequest maxRetries now renv env method endpoint (rc + 1) s5
              (r.1, { r.2 with endCalls := r.2.endCalls ++ [false] })
            else
              (MRes.ok (errObj ("Request failed: " ++ msg)),
               { s4 with endCalls := s4.endCalls ++ [false] })
        | Outcome.otherExc msg =>
            (MRes.ok (errObj ("Unexpected error: " ++ msg)),
             { s3 with records := s3.records ++ [false], endCalls := s3.endCalls ++ [false] })
      else
        (MRes.ok (errObj ("Unexpected error: Unsupported HTTP method: " ++ method)),
         { s2 with records := s2.records ++ [false], endCalls := s2.endCalls ++ [false] })
termination_by maxRetries + 1 - rc
decreasing_by
  · omega
  · omega

/-- Embedding of `get` (api_client.py lines 239-241). -/
def getReq (maxRetries : Nat) (now : Int) (renv : Nat → RefreshRes)
    (env : Nat → Outcome) (endpoint : String) (s : SeqState) : MRes × SeqState :=
  makeRequest maxRetries now renv env ("GET") endpoint 0 s

/-- Embedding of `post` (api_client.py lines 243-245). -/
def postReq (maxRetries : Nat) (now : Int) (renv : Nat → RefreshRes)
    (env : Nat → Outcome) (endpoint : String) (s : SeqState) : MRes × SeqState :=
  makeRequest maxRetries now renv env ("POST") endpoint 0 s

/-- The spec's freshness condition: some cached entry (local instance
fields or shared cache) satisfies `now < expires_at - 300`. -/
def cachedFresh (now : Int) (s : SeqState) : Bool :=
  (match s.authToken with
   | some _ => tokenFresh now s.tokenExpiresAt
   | none => false) ||
  (match s.shared with
   | some (_, exp) => tokenFresh now exp
   | none => false)

/-- A Python value as inspected by `_is_successful_response`
(tool_metrics.py lines 103-125): the function only distinguishes
strings, ints, and everything else (lists, dicts, None, floats...). -/
inductive PyVal where
  | str (s : String)
  | int (n : Int)
  | other
deriving DecidableEq, Repr

/-- A tool response: a dict (association list with Python dict key
uniqueness, first binding wins) or any non-dict value. -/
inductive PyResponse where
  | dict (entries : List (String × PyVal))
  | nonDict
deriving DecidableEq, Repr

/-- Python `str.lower()` (ASCII, as the checked keywords are ASCII). -/
def lowerStr (s : String) : String :=
  String.mk (s.data.map Char.toLower)

/-- Is `pre` a prefix of `l`? -/
def startsWithChars : List Char → List Char → Bool
  | [], _ => true
  | _ :: _, [] => false
  | a :: as1, b :: bs => a == b && startsWithChars as1 bs

/-- Python's `needle in hay` substring test. -/
def containsChars (hay needle : List Char) : Bool :=
  if startsWithChars needle hay then true
  else
    match hay with
    | [] => false
    | _ :: t => containsChars t needle

/-- Python `sub in s` on strings. -/
def strContains (s sub : String) : Bool :=
  containsChars s.data sub.data

/-- Embedding of `_is_successful_response` (tool_metrics.py lines 103-125): success
iff the response is a dict with no "error" key, no error-indicating
"code" (a string containing "error" case-insensitively, or an int
>= 400), and no "error"/"failed"/"failure" keyword in a string
"message" field (absent message defaults to the empty string). -/
def isSuccessfulResponse (r : PyResponse) : Bool :=
  match r with
  | PyResponse.nonDict => false
  | PyResponse.dict es =>
      if (es.lookup ("error")).isSome then false
      else
        let codeFail : Bool :=
          match es.lookup ("code") with
          | some v =>
              (match v with
               | PyVal.str c => strContains (lowerStr c) ("error")
               | PyVal.int n => decide (400 ≤ n)
               | PyVal.other => false)
          | none => false
        if codeFail then false
        else
          let message : PyVal := (es.lookup ("message")).getD (PyVal.str (""))
          let msgFail : Bool :=
            match message with
            | PyVal.str m =>
                strContains (lowerStr m) ("error") ||
                strContains (lowerStr m) ("failed") ||
                strContains (lowerStr m) ("failure")
            | _ => false
          if msgFail then false else true

/-- Control point of one `_get_valid_token` caller in the concurrent
scenario of the spec: `N` fresh client instances sharing one identity,
starting with no valid cached token.  `start`: about to run the
cache-read phase (both the instance-local fields and the shared cache;
the local fields of a fresh instance never hit, so the read is decided
by the shared cache).  `wantLock`: cache miss, awaiting the per-identity
lock.  `inLock`: holds the lock, about to re-check the caches.
`refreshing`: network refresh POST in flight (still holding the lock).
`done t`: returned token `t`. -/
inductive CPC where
  | start
  | wantLock
  | inLock
  | refreshing
  | done (t : Nat)
deriving DecidableEq, Repr

/-- Global state for `n` concurrent callers of one identity: the shared
token cache entry (the frozen clock keeps any written entry fresh, so
only the token is tracked), the holder of the per-identity asyncio
lock, how many refresh POSTs have completed, and each caller's control
point.  The k-th completed refresh returns token `k`, so distinct
refresh calls would return distinct tokens. -/
@[ext]
structure CState (n : Nat) where
  cache : Option Nat
  lockOwner : Option (Fin n)
  refreshes : Nat
  pcs : Fin n → CPC
deriving DecidableEq

/-- Initial state: empty shared cache, lock free, no refreshes, all
callers about to read the caches. -/
def cInit (n : Nat) : CState n :=
  ⟨none, none, 0, fun _ => CPC.start⟩

/-- One interleaving step of the concurrent `_get_valid_token` runs.
Each constructor is one atomic region of the Python code (code between
`await` points runs atomically under asyncio's cooperative scheduler).
-/
inductive CStep {n : Nat} : CState n → CState n → Prop where
  | cacheHit (s : CState n) (i : Fin n) (t : Nat) :
      s.pcs i = CPC.start → s.cache = some t →
      CStep s { s with pcs := Function.update s.pcs i (CPC.done t) }
  | cacheMiss (s : CState n) (i : Fin n) :
      s.pcs i = CPC.start → s.cache = none →
      CStep s { s with pcs := Function.update s.pcs i CPC.wantLock }
  | acquire (s : CState n) (i : Fin n) :
      s.pcs i = CPC.wantLock → s.lockOwner = none →
      CStep s { s with lockOwner := some i,
                       pcs := Function.update s.pcs i CPC.inLock }
  | lockCacheHit (s : CState n) (i : Fin n) (t : Nat) :
      s.pcs i = CPC.inLock → s.cache = some t →
      CStep s { s with lockOwner := none,
                       pcs := Function.update s.pcs i (CPC.done t) }
  | lockCacheMiss (s : CState n) (i : Fin n) :
      s.pcs i = CPC.inLock → s.cache = none →
      CStep s { s with pcs := Function.update s.pcs i CPC.refreshing }
  | refreshDone (s : CState n) (i : Fin n) :
      s.pcs i = CPC.refreshing →
      CStep s { s with cache := some s.refreshes,
                       refreshes := s.refreshes + 1,
                       lockOwner := none,
                       pcs := Function.update s.pcs i (CPC.done s.refreshes) }

/-- Reachability from the initial state by any interleaving. -/
def CReachable {n : Nat} (s : CState n) : Prop :=
  Relation.ReflTransGen CStep (cInit n) s

/-- The inductive invariant: lock discipline (anyone at `inLock` or
`refreshing` is the lock owner), cache/refresh-count coherence, a
refresh is only in flight while the cache is empty, and every finished
caller returned token 0 after exactly one refresh. -/
def CInv {n : Nat} (s : CState n) : Prop :=
  (∀ i, (s.pcs i = CPC.inLock ∨ s.pcs i = CPC.refreshing) → s.lockOwner = some i) ∧
  ((s.cache = none ∧ s.refreshes = 0) ∨ (s.cache = some 0 ∧ s.refreshes = 1)) ∧
  (∀ i, s.pcs i = CPC.refreshing → s.cache = none) ∧
  (∀ i t, s.pcs i = CPC.done t → t = 0 ∧ s.refreshes = 1)

/-- A state with a locally cached token that expires at time 1000: used
to witness claim C2 at time 0 (700 seconds of validity left). -/
def freshLocalState : SeqState :=
  { initState with authToken := some 7, tokenExpiresAt := 1000 }

/-- The state transform of the 401 retry branch (api_client.py lines
201-210): local token fields and shared cache entry cleared, this
attempt's start/record events logged. -/
def invalidatedRetryState (endpoint : String) (s1 : SeqState) : SeqState :=
  { s1 with authToken := none, tokenExpiresAt := 0, shared := none,
            attempts := s1.attempts + 1,
            metricLabels := s1.metricLabels ++ [cleanEndpoint endpoint],
            httpEndpoints := s1.httpEndpoints ++ [endpoint],
            records := s1.records ++ [false] }

/-- The final state of a non-retried failing attempt: one more attempt,
failure recorded, end event fired, nothing else changed. -/
def attemptFailFinalState (endpoint : String) (s1 : SeqState) : SeqState :=
  { s1 with attempts := s1.attempts + 1,
            metricLabels := s1.metricLabels ++ [cleanEndpoint endpoint],
            httpEndpoints := s1.httpEndpoints ++ [endpoint],
            records := s1.records ++ [false],
            endCalls := s1.endCalls ++ [false] }

/-- The state transform of the network-error retry branch
(api_client.py lines 219-222): backoff sleep of `2 ^ retry_count`
logged along with this attempt's events. -/
def backoffRetryState (endpoint : String) (rc : Nat) (s1 : SeqState) : SeqState :=
  { s1 with attempts := s1.attempts + 1,
            sleeps := s1.sleeps ++ [2 ^ rc],
            metricLabels := s1.metricLabels ++ [cleanEndpoint endpoint],
            httpEndpoints := s1.httpEndpoints ++ [endpoint],
            records := s1.records ++ [false] }

/-- Final state of the C5 401-recovery scenario: two attempts, two
refreshes (initial acquisition plus the forced one), second attempt
successful. -/
def c5FinalState : SeqState :=
  { authToken := some 101, tokenExpiresAt := 3600, shared := some (101, 3600),
    refreshCount := 2, attempts := 2, sleeps := [],
    records := [false, true], endCalls := [true, false],
    metricLabels := ["/p", "/p"], httpEndpoints := ["/p", "/p"] }

/-- Final state of the C6 retry-exhaustion scenario with
`max_retries = 2`: three attempts, backoff sleeps of 1 and 2 seconds,
one initial token refresh. -/
def c6FinalState : SeqState :=
  { authToken := some 100, tokenExpiresAt := 3600, shared := some (100, 3600),
    refreshCount := 1, attempts := 3, sleeps := [1, 2],
    records := [false, false, false], endCalls := [false, false, false],
    metricLabels := ["/x", "/x", "/x"], httpEndpoints := ["/x", "/x", "/x"] }

/-- Final state of the C7 exception-exit scenario: the one attempt got
its `end_api_call` event (success flag false) even though the exit path
is a propagating token-refresh exception during the retry. -/
def c7ExcFinalState : SeqState :=
  { authToken := none, tokenExpiresAt := 0, shared := none,
    refreshCount := 2, attempts := 1, sleeps := [],
    records := [false], endCalls := [false],
    metricLabels := ["/p"], httpEndpoints := ["/p"] }

/-- Final state of the C7 success scenario: one attempt, end event with
success flag true. -/
def c7OkFinalState : SeqState :=
  { authToken := some 100, tokenExpiresAt := 3600, shared := some (100, 3600),
    refreshCount := 1, attempts := 1, sleeps := [],
    records := [true], endCalls := [true],
    metricLabels := ["/p"], httpEndpoints := ["/p"] }

/-- The terminal state of the single-caller witness run: token 0 cached
and returned after exactly one refresh. -/
def c1FinalState : CState 1 :=
  ⟨some 0, none, 1, fun _ => CPC.done 0⟩

/-- Lemma: `_get_valid_token` touches only the token fields: every
instrumentation log is unchanged by token acquisition. -/
theorem getValidToken_logs (now : Int) (renv : Nat → RefreshRes) (s : SeqState) :
    (getValidToken now renv s).2.attempts = s.attempts ∧
    (getValidToken now renv s).2.sleeps = s.sleeps ∧
    (getValidToken now renv s).2.records = s.records ∧
    (getValidToken now renv s).2.endCalls = s.endCalls ∧
    (getValidToken now renv s).2.metricLabels = s.metricLabels ∧
    (getValidToken now renv s).2.httpEndpoints = s.httpEndpoints := by
  unfold getValidToken readCaches readShared refreshToken
  rcases ha : s.authToken with _ | t <;> rcases hs : s.shared with _ | ⟨t2, e2⟩ <;>
    rcases hr : renv s.refreshCount with ⟨tok, ei⟩ | c | txt <;>
    simp [ha, hs, hr] <;> split_ifs <;> simp

/-- If every refresh POST in the environment succeeds, token acquisition
returns a token (never an exception). -/
theorem getValidToken_ok (now : Int) (renv : Nat → RefreshRes) (s : SeqState)
    (hok : ∀ k, ∃ t ei, renv k = RefreshRes.ok t ei) :
    ∃ t, (getValidToken now renv s).1 = Except.ok t := by
  obtain ⟨t, ei, hr⟩ := hok s.refreshCount
  unfold getValidToken readCaches readShared refreshToken
  rcases ha : s.authToken with _ | t1 <;> rcases hs : s.shared with _ | ⟨t2, e2⟩ <;>
    simp [ha, hs, hr] <;> split_ifs <;> simp

/-- The structured failure dicts returned by the client carry an
"error" key. -/
theorem hasErrorKey_errObj (msg : String) : hasErrorKey (errObj msg) = true := rfl

/-- Per-attempt accounting for `end_api_call`: across one `_make_request`
call (including all its internal retries) the number of `end_api_call`
events grows by exactly the number of `start_api_call` events
(= physical attempts), on every exit path including a propagating
exception. -/
theorem makeRequest_endCalls (mr : Nat) (now : Int) (renv : Nat → RefreshRes)
    (env : Nat → Outcome) (method endpoint : String) :
    ∀ rc s, (makeRequest mr now renv env method endpoint rc s).2.endCalls.length
        + s.attempts =
      (makeRequest mr now renv env method endpoint rc s).2.attempts
        + s.endCalls.length := by
  suffices h : ∀ d rc s, mr + 1 - rc ≤ d →
      (makeRequest mr now renv env method endpoint rc s).2.endCalls.length + s.attempts =
      (makeRequest mr now renv env method endpoint rc s).2.attempts + s.endCalls.length by
    exact fun rc s => h (mr + 1 - rc) rc s le_rfl
  intro d
  induction d with
  | zero =>
      intro rc s hle
      have hrc : ¬ rc < mr := by omega
      rw [makeRequest]
      rcases h1 : getValidToken now renv s with ⟨e | tok, s1⟩ <;>
        have hl := getValidToken_logs now renv s <;> rw [h1] at hl <;> simp at hl <;>
        obtain ⟨hat, hsl, hrec, hend, hml, hhe⟩ := hl <;>
        have hendlen : s1.endCalls.length = s.endCalls.length := by rw [hend]
      · simp
        omega
      · by_cases hm : supportedMethod method = true
        · rcases h2 : env s1.attempts with body | ⟨code, btext⟩ | msg | msg <;>
            simp [hm, h2, hrc] <;> omega
        · simp [hm]
          omega
  | succ n ih =>
      intro rc s hle
      rw [makeRequest]
      rcases h1 : getValidToken now renv s with ⟨e | tok, s1⟩ <;>
        have hl := getValidToken_logs now renv s <;> rw [h1] at hl <;> simp at hl <;>
        obtain ⟨hat, hsl, hrec, hend, hml, hhe⟩ := hl <;>
        have hendlen : s1.endCalls.length = s.endCalls.length := by rw [hend]
      · simp
        omega
      · by_cases hm : supportedMethod method = true
        · rcases h2 : env s1.attempts with body | ⟨code, btext⟩ | msg | msg
          · simp [hm, h2]
            omega
          · simp [hm, h2]
            by_cases hc : code = 401 ∧ rc < mr
            · simp [hc]
              have hih := ih (rc + 1)
                { authToken := none, tokenExpiresAt := 0, shared := none,
                  refreshCount := s1.refreshCount,
                  attempts := s1.attempts + 1, sleeps := s1.sleeps,
                  records := s1.records ++ [false], endCalls := s1.endCalls,
                  metricLabels := s1.metricLabels ++ [cleanEndpoint endpoint],
                  httpEndpoints := s1.httpEndpoints ++ [endpoint] } (by omega)
              simp at hih
              omega
            · simp [hc]
              omega
          · simp [hm, h2]
            by_cases hc : rc < mr
            · simp [hc]
              have hih := ih (rc + 1)
                { authToken := s1.authToken, tokenExpiresAt := s1.tokenExpiresAt,
                  shared := s1.shared, refreshCount := s1.refreshCount,
                  attempts := s1.attempts + 1, sleeps := s1.sleeps ++ [2 ^ rc],
                  records := s1.records ++ [false], endCalls := s1.endCalls,
                  metricLabels := s1.metricLabels ++ [cleanEndpoint endpoint],
                  httpEndpoints := s1.httpEndpoints ++ [endpoint] } (by omega)
              simp at hih
              omega
            · simp [hc]
              omega
          · simp [hm, h2]
            omega
        · simp [hm]
          omega

/-- Routing vs. metrics labels: every HTTP dispatch inside one
`_make_request` call goes to the original `endpoint`, while every
metrics event is labeled with the sanitized `cleanEndpoint endpoint`. -/
theorem makeRequest_routes (mr : Nat) (now : Int) (renv : Nat → RefreshRes)
    (env : Nat → Outcome) (method endpoint : String) :
    ∀ rc s, ∃ a b,
      (makeRequest mr now renv env method endpoint rc s).2.httpEndpoints =
        s.httpEndpoints ++ List.replicate a endpoint ∧
      (makeRequest mr now renv env method endpoint rc s).2.metricLabels =
        s.metricLabels ++ List.replicate b (cleanEndpoint endpoint) := by
  suffices h : ∀ d rc s, mr + 1 - rc ≤ d → ∃ a b,
      (makeRequest mr now renv env method endpoint rc s).2.httpEndpoints =
        s.httpEndpoints ++ List.replicate a endpoint ∧
      (makeRequest mr now renv env method endpoint rc s).2.metricLabels =
        s.metricLabels ++ List.replicate b (cleanEndpoint endpoint) by
    exact fun rc s => h (mr + 1 - rc) rc s le_rfl
  intro d
  induction d with
  | zero =>
      intro rc s hle
      have hrc : ¬ rc < mr := by omega
      rw [makeRequest]
      rcases h1 : getValidToken now renv s with ⟨e | tok, s1⟩ <;>
        have hl := getValidToken_logs now renv s <;> rw [h1] at hl <;> simp at hl <;>
        obtain ⟨hat, hsl, hrec, hend, hml, hhe⟩ := hl
      · exact ⟨0, 0, by simp [hml, hhe]⟩
      · by_cases hm : supportedMethod method = true
        · rcases h2 : env s1.attempts with body | ⟨code, btext⟩ | msg | msg <;>
            exact ⟨1, 1, by simp [hm, h2, hrc, hml, hhe]⟩
        · exact ⟨0, 1, by simp [hm, hml, hhe]⟩
  | succ n ih =>
      intro rc s hle
      rw [makeRequest]
      rcases h1 : getValidToken now renv s with ⟨e | tok, s1⟩ <;>
        have hl := getValidToken_logs now renv s <;> rw [h1] at hl <;> simp at hl <;>
        obtain ⟨hat, hsl, hrec, hend, hml, hhe⟩ := hl
      · exact ⟨0, 0, by simp [hml, hhe]⟩
      · by_cases hm : supportedMethod method = true
        · rcases h2 : env s1.attempts with body | ⟨code, btext⟩ | msg | msg
          · exact ⟨1, 1, by simp [hm, h2, hml, hhe]⟩
          · by_cases hc : code = 401 ∧ rc < mr
            · obtain ⟨a, b, hA, hB⟩ := ih (rc + 1)
                { authToken := none, tokenExpiresAt := 0, shared := none,
                  refreshCount := s1.refreshCount,
                  attempts := s1.attempts + 1, sleeps := s1.sleeps,
                  records := s1.records ++ [false], endCalls := s1.endCalls,
                  metricLabels := s1.metricLabels ++ [cleanEndpoint endpoint],
                  httpEndpoints := s1.httpEndpoints ++ [endpoint] } (by omega)
              simp at hA hB
              refine ⟨a + 1, b + 1, ?_, ?_⟩ <;>
                simp [hm, h2, hc, hA, hB, List.replicate_succ] <;>
                simp [hml, hhe, List.append_assoc]
            · exact ⟨1, 1, by simp [hm, h2, hc, hml, hhe]⟩
          · by_cases hc : rc < mr
            · obtain ⟨a, b, hA, hB⟩ := ih (rc + 1)
                { authToken := s1.authToken, tokenExpiresAt := s1.tokenExpiresAt,
                  shared := s1.shared, refreshCount := s1.refreshCount,
                  attempts := s1.attempts + 1, sleeps := s1.sleeps ++ [2 ^ rc],
                  records := s1.records ++ [false], endCalls := s1.endCalls,
                  metricLabels := s1.metricLabels ++ [cleanEndpoint endpoint],
                  httpEndpoints := s1.httpEndpoints ++ [endpoint] } (by omega)
              simp at hA hB
              refine ⟨a + 1, b + 1, ?_, ?_⟩ <;>
                simp [hm, h2, hc, hA, hB, List.replicate_succ] <;>
                simp [hml, hhe, List.append_assoc]
            · exact ⟨1, 1, by simp [hm, h2, hc, hml, hhe]⟩
          · exact ⟨1, 1, by simp [hm, h2, hml, hhe]⟩
        · exact ⟨0, 1, by simp [hm, hml, hhe]⟩

/-- Totality of the Executor: when every token refresh in the
environment succeeds, `_make_request` never raises — it returns a value
that is either a 2xx body delivered by some dispatch attempt or a dict
with an "error" key. -/
theorem makeRequest_total (mr : Nat) (now : Int) (renv : Nat → RefreshRes)
    (env : Nat → Outcome) (method endpoint : String)
    (hok : ∀ k, ∃ t ei, renv k = RefreshRes.ok t ei) :
    ∀ rc s, ∃ v,
      (makeRequest mr now renv env method endpoint rc s).1 = MRes.ok v ∧
      (hasErrorKey v = true ∨ ∃ k, env k = Outcome.success v) := by
  suffices h : ∀ d rc s, mr + 1 - rc ≤ d → ∃ v,
      (makeRequest mr now renv env method endpoint rc s).1 = MRes.ok v ∧
      (hasErrorKey v = true ∨ ∃ k, env k = Outcome.success v) by
    exact fun rc s => h (mr + 1 - rc) rc s le_rfl
  intro d
  induction d with
  | zero =>
      intro rc s hle
      have hrc : ¬ rc < mr := by omega
      rw [makeRequest]
      rcases h1 : getValidToken now renv s with ⟨e | tok, s1⟩
      · obtain ⟨t, ht⟩ := getValidToken_ok now renv s hok
        rw [h1] at ht
        simp at ht
      · by_cases hm : supportedMethod method = true
        · rcases h2 : env s1.attempts with body | ⟨code, btext⟩ | msg | msg
          · exact ⟨body, by simp [hm, h2], Or.inr ⟨s1.attempts, h2⟩⟩
          · exact ⟨errObj ("HTTP " ++ toString code ++ ": " ++ btext),
              by simp [hm, h2, hrc], Or.inl rfl⟩
          · exact ⟨errObj ("Request failed: " ++ msg),
              by simp [hm, h2, hrc], Or.inl rfl⟩
          · exact ⟨errObj ("Unexpected error: " ++ msg),
              by simp [hm, h2], Or.inl rfl⟩
        · exact ⟨errObj ("Unexpected error: Unsupported HTTP method: " ++ method),
            by simp [hm], Or.inl rfl⟩
  | succ n ih =>
      intro rc s hle
      rw [makeRequest]
      rcases h1 : getValidToken now renv s with ⟨e | tok, s1⟩
      · obtain ⟨t, ht⟩ := getValidToken_ok now renv s hok
        rw [h1] at ht
        simp at ht
      · by_cases hm : supportedMethod method = true
        · rcases h2 : env s1.attempts with body | ⟨code, btext⟩ | msg | msg
          · exact ⟨body, by simp [hm, h2], Or.inr ⟨s1.attempts, h2⟩⟩
          · by_cases hc : code = 401 ∧ rc < mr
            · obtain ⟨v, hv, hd⟩ := ih (rc + 1)
                { authToken := none, tokenExpiresAt := 0, shared := none,
                  refreshCount := s1.refreshCount,
                  attempts := s1.attempts + 1, sleeps := s1.sleeps,
                  records := s1.records ++ [false], endCalls := s1.endCalls,
                  metricLabels := s1.metricLabels ++ [cleanEndpoint endpoint],
                  httpEndpoints := s1.httpEndpoints ++ [endpoint] } (by omega)
              exact ⟨v, by simp [hm, h2, hc, hv], hd⟩
            · exact ⟨errObj ("HTTP " ++ toString code ++ ": " ++ btext),
                by simp [hm, h2, hc], Or.inl rfl⟩
          · by_cases hc : rc < mr
            · obtain ⟨v, hv, hd⟩ := ih (rc + 1)
                { authToken := s1.authToken, tokenExpiresAt := s1.tokenExpiresAt,
                  shared := s1.shared, refreshCount := s1.refreshCount,
                  attempts := s1.attempts + 1, sleeps := s1.sleeps ++ [2 ^ rc],
                  records := s1.records ++ [false], endCalls := s1.endCalls,
                  metricLabels := s1.metricLabels ++ [cleanEndpoint endpoint],
                  httpEndpoints := s1.httpEndpoints ++ [endpoint] } (by omega)
              exact ⟨v, by simp [hm, h2, hc, hv], hd⟩
            · exact ⟨errObj ("Request failed: " ++ msg),
                by simp [hm, h2, hc], Or.inl rfl⟩
          · exact ⟨errObj ("Unexpected error: " ++ msg),
              by simp [hm, h2], Or.inl rfl⟩
        · exact ⟨errObj ("Unexpected error: Unsupported HTTP method: " ++ method),
            by simp [hm], Or.inl rfl⟩

/-- The cache-reading phase misses exactly when no cached entry is
fresh. -/
theorem readCaches_none_iff (now : Int) (s : SeqState) :
    readCaches now s = none ↔ cachedFresh now s = false := by
  unfold readCaches readShared cachedFresh
  rcases ha : s.authToken with _ | t <;> rcases hs : s.shared with _ | ⟨t2, e2⟩ <;>
    simp [ha, hs] <;> split_ifs <;> simp_all

/-- A cache hit returns a token backed by an entry with more than 300
seconds of validity left, performs no refresh, and leaves every log
unchanged. -/
theorem readCaches_some_spec (now : Int) (s : SeqState) (t : Nat) (s1 : SeqState)
    (h : readCaches now s = some (t, s1)) :
    s1.refreshCount = s.refreshCount ∧
    ∃ exp, ((s.authToken = some t ∧ exp = s.tokenExpiresAt) ∨ s.shared = some (t, exp)) ∧
      now < exp - 300 := by
  unfold readCaches readShared at h
  rcases ha : s.authToken with _ | t1 <;> rcases hs : s.shared with _ | ⟨t2, e2⟩ <;>
    (rw [ha, hs] at h; simp [tokenFresh] at h)
  · obtain ⟨hfr, ht, hs1⟩ := h
    subst ht
    constructor
    · rw [← hs1]
    · exact ⟨e2, Or.inr rfl, hfr⟩
  · obtain ⟨hfr, ht, hs1⟩ := h
    subst ht hs1
    exact ⟨rfl, s.tokenExpiresAt, Or.inl ⟨rfl, rfl⟩, hfr⟩
  · by_cases hfr : now < s.tokenExpiresAt - 300
    · rw [if_pos hfr] at h
      simp at h
      obtain ⟨ht, hs1⟩ := h
      subst ht hs1
      exact ⟨rfl, s.tokenExpiresAt, Or.inl ⟨rfl, rfl⟩, hfr⟩
    · rw [if_neg hfr] at h
      by_cases hfr2 : now < e2 - 300
      · rw [if_pos hfr2] at h
        simp at h
        obtain ⟨ht, hs1⟩ := h
        subst ht
        constructor
        · rw [← hs1]
        · exact ⟨e2, Or.inr rfl, hfr2⟩
      · rw [if_neg hfr2] at h
        exact absurd h (by simp)

/-- `_get_valid_token` leaves `refreshCount` unchanged exactly on a
cache hit, and otherwise increments it exactly once. -/
theorem getValidToken_refresh_iff (now : Int) (renv : Nat → RefreshRes) (s : SeqState) :
    ((getValidToken now renv s).2.refreshCount = s.refreshCount ↔ cachedFresh now s = true) ∧
    (cachedFresh now s = false →
      (getValidToken now renv s).2.refreshCount = s.refreshCount + 1) := by
  unfold getValidToken
  rcases h : readCaches now s with _ | ⟨t, s1⟩
  · have hf : cachedFresh now s = false := (readCaches_none_iff now s).mp h
    unfold refreshToken
    rcases renv s.refreshCount with ⟨tok, ei⟩ | c | txt <;> simp [hf]
  · have hc := readCaches_some_spec now s t s1 h
    have hf : ¬ cachedFresh now s = false := by
      intro hf
      rw [← readCaches_none_iff now s] at hf
      rw [h] at hf
      exact Option.noConfusion hf
    simp [hc.1, hf]

/-- An attempt that receives a non-retryable HTTP status error (non-401,
or 401 with the retry budget exhausted) immediately returns the
structured error `{"error": "HTTP <status>: <body>"}`: exactly one more
attempt, no sleep, no retry. -/
theorem makeRequest_statusErr_final (mr : Nat) (now : Int) (renv : Nat → RefreshRes)
    (env : Nat → Outcome) (method endpoint : String) (rc : Nat) (s : SeqState)
    (tok : Nat) (s1 : SeqState) (code : Nat) (btext : String)
    (h1 : getValidToken now renv s = (Except.ok tok, s1))
    (hm : supportedMethod method = true)
    (h2 : env s1.attempts = Outcome.statusErr code btext)
    (hc : ¬ (code = 401 ∧ rc < mr)) :
    makeRequest mr now renv env method endpoint rc s =
      (MRes.ok (errObj ("HTTP " ++ toString code ++ ": " ++ btext)),
       { s1 with attempts := s1.attempts + 1,
                 metricLabels := s1.metricLabels ++ [cleanEndpoint endpoint],
                 httpEndpoints := s1.httpEndpoints ++ [endpoint],
                 records := s1.records ++ [false],
                 endCalls := s1.endCalls ++ [false] }) := by
  rw [makeRequest, h1]
  simp [hm, h2, hc]

/-- An attempt that receives a 401 with retry budget remaining clears
the local token fields and the shared cache entry and re-invokes the
full request with `retry_count + 1`; the frame's own `end_api_call`
(success flag false) runs after the retry completes. -/
theorem makeRequest_401_retry (mr : Nat) (now : Int) (renv : Nat → RefreshRes)
    (env : Nat → Outcome) (method endpoint : String) (rc : Nat) (s : SeqState)
    (tok : Nat) (s1 : SeqState) (btext : String)
    (h1 : getValidToken now renv s = (Except.ok tok, s1))
    (hm : supportedMethod method = true)
    (h2 : env s1.attempts = Outcome.statusErr 401 btext)
    (hrc : rc < mr) :
    makeRequest mr now renv env method endpoint rc s =
      ((makeRequest mr now renv env method endpoint (rc + 1)
          { s1 with authToken := none, tokenExpiresAt := 0, shared := none,
                    attempts := s1.attempts + 1,
                    metricLabels := s1.metricLabels ++ [cleanEndpoint endpoint],
                    httpEndpoints := s1.httpEndpoints ++ [endpoint],
                    records := s1.records ++ [false] }).1,
       { (makeRequest mr now renv env method endpoint (rc + 1)
          { s1 with authToken := none, tokenExpiresAt := 0, shared := none,
                    attempts := s1.attempts + 1,
                    metricLabels := s1.metricLabels ++ [cleanEndpoint endpoint],
                    httpEndpoints := s1.httpEndpoints ++ [endpoint],
                    records := s1.records ++ [false] }).2
         with endCalls :=
           (makeRequest mr now renv env method endpoint (rc + 1)
             { s1 with authToken := none, tokenExpiresAt := 0, shared := none,
                       attempts := s1.attempts + 1,
                       metricLabels := s1.metricLabels ++ [cleanEndpoint endpoint],
                       httpEndpoints := s1.httpEndpoints ++ [endpoint],
                       records := s1.records ++ [false] }).2.endCalls ++ [false] }) := by
  rw [makeRequest, h1]
  simp [hm, h2, hrc]

/-- An attempt that fails with a network error while retry budget
remains sleeps exactly `2 ^ retry_count` seconds and re-invokes the
full request with `retry_count + 1`. -/
theorem makeRequest_netErr_retry (mr : Nat) (now : Int) (renv : Nat → RefreshRes)
    (env : Nat → Outcome) (method endpoint : String) (rc : Nat) (s : SeqState)
    (tok : Nat) (s1 : SeqState) (msg : String)
    (h1 : getValidToken now renv s = (Except.ok tok, s1))
    (hm : supportedMethod method = true)
    (h2 : env s1.attempts = Outcome.netErr msg)
    (hrc : rc < mr) :
    makeRequest mr now renv env method endpoint rc s =
      ((makeRequest mr now renv env method endpoint (rc + 1)
          { s1 with attempts := s1.attempts + 1,
                    sleeps := s1.sleeps ++ [2 ^ rc],
                    metricLabels := s1.metricLabels ++ [cleanEndpoint endpoint],
                    httpEndpoints := s1.httpEndpoints ++ [endpoint],
                    records := s1.records ++ [false] }).1,
       { (makeRequest mr now renv env method endpoint (rc + 1)
          { s1 with attempts := s1.attempts + 1,
                    sleeps := s1.sleeps ++ [2 ^ rc],
                    metricLabels := s1.metricLabels ++ [cleanEndpoint endpoint],
                    httpEndpoints := s1.httpEndpoints ++ [endpoint],
                    records := s1.records ++ [false] }).2
         with endCalls :=
           (makeRequest mr now renv env method endpoint (rc + 1)
             { s1 with attempts := s1.attempts + 1,
                       sleeps := s1.sleeps ++ [2 ^ rc],
                       metricLabels := s1.metricLabels ++ [cleanEndpoint endpoint],
                       httpEndpoints := s1.httpEndpoints ++ [endpoint],
                       records := s1.records ++ [false] }).2.endCalls ++ [false] }) := by
  rw [makeRequest, h1]
  simp [hm, h2, hrc]

/-- A network error with the retry budget exhausted returns the
structured error `{"error": "Request failed: <detail>"}`. -/
theorem makeRequest_netErr_final (mr : Nat) (now : Int) (renv : Nat → RefreshRes)
    (env : Nat → Outcome) (method endpoint : String) (rc : Nat) (s : SeqState)
    (tok : Nat) (s1 : SeqState) (msg : String)
    (h1 : getValidToken now renv s = (Except.ok tok, s1))
    (hm : supportedMethod method = true)
    (h2 : env s1.attempts = Outcome.netErr msg)
    (hrc : ¬ rc < mr) :
    makeRequest mr now renv env method endpoint rc s =
      (MRes.ok (errObj ("Request failed: " ++ msg)),
       { s1 with attempts := s1.attempts + 1,
                 metricLabels := s1.metricLabels ++ [cleanEndpoint endpoint],
                 httpEndpoints := s1.httpEndpoints ++ [endpoint],
                 records := s1.records ++ [false],
                 endCalls := s1.endCalls ++ [false] }) := by
  rw [makeRequest, h1]
  simp [hm, h2, hrc]

theorem cInv_init (n : Nat) : CInv (cInit n) := by
  refine ⟨?_, Or.inl ⟨rfl, rfl⟩, ?_, ?_⟩ <;> intro i <;> simp [cInit]

theorem cInv_step {n : Nat} {s s2 : CState n} (hinv : CInv s) (hstep : CStep s s2) :
    CInv s2 := by
  obtain ⟨hlock, hcache, hrefr, hdone⟩ := hinv
  cases hstep with
  | cacheHit i t hpc hc =>
      have ht : t = 0 ∧ s.refreshes = 1 := by
        rcases hcache with ⟨h1, _⟩ | ⟨h1, h2⟩
        · rw [h1] at hc
          exact Option.noConfusion hc
        · rw [h1] at hc
          exact ⟨(Option.some.injEq _ _ ▸ hc).symm, h2⟩
      refine ⟨?_, hcache, ?_, ?_⟩
      · intro j hj
        dsimp only at hj ⊢
        rcases eq_or_ne j i with rfl | hne
        · rw [Function.update_same] at hj
          rcases hj with hj | hj <;> exact CPC.noConfusion hj
        · rw [Function.update_noteq hne] at hj
          exact hlock j hj
      · intro j hj
        dsimp only at hj ⊢
        rcases eq_or_ne j i with rfl | hne
        · rw [Function.update_same] at hj
          exact CPC.noConfusion hj
        · rw [Function.update_noteq hne] at hj
          exact hrefr j hj
      · intro j u hj
        dsimp only at hj ⊢
        rcases eq_or_ne j i with rfl | hne
        · rw [Function.update_same] at hj
          cases hj
          exact ht
        · rw [Function.update_noteq hne] at hj
          exact hdone j u hj
  | cacheMiss i hpc hc =>
      refine ⟨?_, hcache, ?_, ?_⟩
      · intro j hj
        dsimp only at hj ⊢
        rcases eq_or_ne j i with rfl | hne
        · rw [Function.update_same] at hj
          rcases hj with hj | hj <;> exact CPC.noConfusion hj
        · rw [Function.update_noteq hne] at hj
          exact hlock j hj
      · intro j hj
        dsimp only at hj ⊢
        rcases eq_or_ne j i with rfl | hne
        · rw [Function.update_same] at hj
          exact CPC.noConfusion hj
        · rw [Function.update_noteq hne] at hj
          exact hrefr j hj
      · intro j u hj
        dsimp only at hj ⊢
        rcases eq_or_ne j i with rfl | hne
        · rw [Function.update_same] at hj
          exact CPC.noConfusion hj
        · rw [Function.update_noteq hne] at hj
          exact hdone j u hj
  | acquire i hpc hfree =>
      refine ⟨?_, hcache, ?_, ?_⟩
      · intro j hj
        dsimp only at hj ⊢
        rcases eq_or_ne j i with rfl | hne
        · rfl
        · rw [Function.update_noteq hne] at hj
          have hcon := hlock j hj
          rw [hfree] at hcon
          exact Option.noConfusion hcon
      · intro j hj
        dsimp only at hj ⊢
        rcases eq_or_ne j i with rfl | hne
        · rw [Function.update_same] at hj
          exact CPC.noConfusion hj
        · rw [Function.update_noteq hne] at hj
          exact hrefr j hj
      · intro j u hj
        dsimp only at hj ⊢
        rcases eq_or_ne j i with rfl | hne
        · rw [Function.update_same] at hj
          exact CPC.noConfusion hj
        · rw [Function.update_noteq hne] at hj
          exact hdone j u hj
  | lockCacheHit i t hpc hc =>
      have ht : t = 0 ∧ s.refreshes = 1 := by
        rcases hcache with ⟨h1, _⟩ | ⟨h1, h2⟩
        · rw [h1] at hc
          exact Option.noConfusion hc
        · rw [h1] at hc
          exact ⟨(Option.some.injEq _ _ ▸ hc).symm, h2⟩
      have howner : s.lockOwner = some i := hlock i (Or.inl hpc)
      refine ⟨?_, hcache, ?_, ?_⟩
      · intro j hj
        dsimp only at hj ⊢
        rcases eq_or_ne j i with rfl | hne
        · rw [Function.update_same] at hj
          rcases hj with hj | hj <;> exact CPC.noConfusion hj
        · rw [Function.update_noteq hne] at hj
          have hcon := hlock j hj
          rw [howner] at hcon
          exact absurd (Option.some_injective _ hcon).symm hne
      · intro j hj
        dsimp only at hj ⊢
        rcases eq_or_ne j i with rfl | hne
        · rw [Function.update_same] at hj
          exact CPC.noConfusion hj
        · rw [Function.update_noteq hne] at hj
          exact hrefr j hj
      · intro j u hj
        dsimp only at hj ⊢
        rcases eq_or_ne j i with rfl | hne
        · rw [Function.update_same] at hj
          cases hj
          exact ht
        · rw [Function.update_noteq hne] at hj
          exact hdone j u hj
  | lockCacheMiss i hpc hc =>
      have howner : s.lockOwner = some i := hlock i (Or.inl hpc)
      refine ⟨?_, hcache, ?_, ?_⟩
      · intro j hj
        dsimp only at hj ⊢
        rcases eq_or_ne j i with rfl | hne
        · exact howner
        · rw [Function.update_noteq hne] at hj
          exact hlock j hj
      · intro j hj
        dsimp only at hj ⊢
        rcases eq_or_ne j i with rfl | hne
        · exact hc
        · rw [Function.update_noteq hne] at hj
          exact hrefr j hj
      · intro j u hj
        dsimp only at hj ⊢
        rcases eq_or_ne j i with rfl | hne
        · rw [Function.update_same] at hj
          exact CPC.noConfusion hj
        · rw [Function.update_noteq hne] at hj
          exact hdone j u hj
  | refreshDone i hpc =>
      have howner : s.lockOwner = some i := hlock i (Or.inr hpc)
      have hcnone : s.cache = none := hrefr i hpc
      have hzero : s.refreshes = 0 := by
        rcases hcache with ⟨_, h2⟩ | ⟨h1, _⟩
        · exact h2
        · rw [h1] at hcnone
          exact Option.noConfusion hcnone
      refine ⟨?_, Or.inr ⟨by dsimp only; rw [hzero], by dsimp only; rw [hzero]⟩, ?_, ?_⟩
      · intro j hj
        dsimp only at hj ⊢
        rcases eq_or_ne j i with rfl | hne
        · rw [Function.update_same] at hj
          rcases hj with hj | hj <;> exact CPC.noConfusion hj
        · rw [Function.update_noteq hne] at hj
          have hcon := hlock j hj
          rw [howner] at hcon
          exact absurd (Option.some_injective _ hcon).symm hne
      · intro j hj
        dsimp only at hj ⊢
        rcases eq_or_ne j i with rfl | hne
        · rw [Function.update_same] at hj
          exact CPC.noConfusion hj
        · rw [Function.update_noteq hne] at hj
          have hcon := hlock j (Or.inr hj)
          rw [howner] at hcon
          exact absurd (Option.some_injective _ hcon).symm hne
      · intro j u hj
        dsimp only at hj ⊢
        rcases eq_or_ne j i with rfl | hne
        · rw [Function.update_same] at hj
          cases hj
          exact ⟨hzero, by rw [hzero]⟩
        · rw [Function.update_noteq hne] at hj
          have hcon := (hdone j u hj).2
          rw [hzero] at hcon
          exact absurd hcon one_ne_zero.symm

/-- Every reachable state satisfies the invariant. -/
theorem cReachable_inv {n : Nat} {s : CState n} (h : CReachable s) : CInv s := by
  induction h with
  | refl => exact cInv_init n
  | tail _ hstep ih => exact cInv_step ih hstep

/-- Claim C2: `_get_valid_token` returns a cached token (local or
shared) without any refresh if and only if some cached entry satisfies
`now < expires_at - 300`; any token served from cache is backed by an
entry with strictly more than 300 seconds of validity left; a token
with 301 seconds remaining is served from cache unchanged, while one
with 299 seconds remaining triggers a refresh. -/
theorem claim_c2_expiry_boundary :
    (∀ (now : Int) (renv : Nat → RefreshRes) (s : SeqState),
      ((getValidToken now renv s).2.refreshCount = s.refreshCount ↔
        cachedFresh now s = true)) ∧
    (∀ (now : Int) (renv : Nat → RefreshRes) (s : SeqState) (t : Nat) (s1 : SeqState),
      getValidToken now renv s = (Except.ok t, s1) →
      s1.refreshCount = s.refreshCount →
      ∃ exp, ((s.authToken = some t ∧ exp = s.tokenExpiresAt) ∨ s.shared = some (t, exp)) ∧
        now + 300 < exp) ∧
    (∀ (now : Int) (renv : Nat → RefreshRes) (tok : Nat),
      getValidToken now renv
          { initState with authToken := some tok, tokenExpiresAt := now + 301 } =
        (Except.ok tok,
          { initState with authToken := some tok, tokenExpiresAt := now + 301 })) ∧
    (∀ (now : Int) (renv : Nat → RefreshRes) (tok : Nat),
      (getValidToken now renv
          { initState with authToken := some tok, tokenExpiresAt := now + 299 }).2.refreshCount
        = 1) := by
  refine ⟨?_, ?_, ?_, ?_⟩
  · intro now renv s
    exact (getValidToken_refresh_iff now renv s).1
  · intro now renv s t s1 hres hcount
    unfold getValidToken at hres
    rcases h : readCaches now s with _ | ⟨t2, s2⟩
    · rw [h] at hres
      simp at hres
      have hlog : (refreshToken now (renv s.refreshCount) s).2.refreshCount =
          s.refreshCount + 1 := by
        unfold refreshToken
        rcases renv s.refreshCount with ⟨tok2, ei⟩ | c | txt <;> simp
      rw [hres] at hlog
      simp at hlog
      rw [hcount] at hlog
      omega
    · rw [h] at hres
      simp at hres
      obtain ⟨ht2, hs2⟩ := hres
      obtain ⟨_, exp, hentry, hfr⟩ := readCaches_some_spec now s t2 s2 h
      subst ht2
      exact ⟨exp, hentry, by omega⟩
  · intro now renv tok
    have hfr : tokenFresh now (now + 301) = true := by
      simp [tokenFresh]
      omega
    unfold getValidToken readCaches
    simp [hfr]
  · intro now renv tok
    have hfr : tokenFresh now (now + 299) = false := by
      simp [tokenFresh]
    unfold getValidToken readCaches readShared refreshToken
    rcases hr : renv 0 with ⟨tok2, ei⟩ | c | txt <;> simp [hfr, initState, hr]

/-- Claim C2 witness: a token cached locally with 700 seconds of
validity (expiry 1000 at time 0) is served from cache and is backed by
an entry with more than 300 seconds left. -/
theorem claim_c2_expiry_boundary_witness :
    ∃ exp : Int,
      ((freshLocalState.authToken = some 7 ∧ exp = freshLocalState.tokenExpiresAt) ∨
        freshLocalState.shared = some (7, exp)) ∧
      (0 : Int) + 300 < exp :=
  claim_c2_expiry_boundary.2.1 0 (fun _ => RefreshRes.errStatus 500)
    freshLocalState 7 freshLocalState
    (by simp [getValidToken, readCaches, tokenFresh, freshLocalState, initState]) rfl

/-- Claim C3: for every outcome environment of the HTTP dispatch and
any retry budget, provided every token refresh succeeds, the Executor
never raises: it always returns a value, either a 2xx body delivered by
some dispatch attempt or a dict with an "error" key. -/
theorem claim_c3_always_returns (mr : Nat) (now : Int) (renv : Nat → RefreshRes)
    (env : Nat → Outcome) (method endpoint : String) (rc : Nat) (s : SeqState)
    (hok : ∀ k, ∃ t ei, renv k = RefreshRes.ok t ei) :
    ∃ v, (makeRequest mr now renv env method endpoint rc s).1 = MRes.ok v ∧
      (hasErrorKey v = true ∨ ∃ k, env k = Outcome.success v) :=
  makeRequest_total mr now renv env method endpoint hok rc s

/-- Claim C3 witness: a run whose only dispatch outcome is an unexpected
exception still returns a value. -/
theorem claim_c3_always_returns_witness :
    ∃ v, (makeRequest 3 0 (fun k => RefreshRes.ok k none)
        (fun _ => Outcome.otherExc ("boom")) "GET" "/p" 0 initState).1 = MRes.ok v ∧
      (hasErrorKey v = true ∨
        ∃ k, (fun _ : Nat => Outcome.otherExc ("boom")) k = Outcome.success v) :=
  claim_c3_always_returns 3 0 (fun k => RefreshRes.ok k none)
    (fun _ => Outcome.otherExc ("boom")) "GET" "/p" 0 initState
    (fun k => ⟨k, none, rfl⟩)

/-- Claim C4: `_refresh_token` POSTs the OAuth2 refresh-token grant
parameters; on success it sets `expires_at = now + expires_in`
(defaulting `expires_in` to 3600 when absent), writes the token to both
the shared cache and the local fields, and returns it; on failure
(non-2xx or missing `access_token`) it raises after exactly one POST
(never retried), the error propagates uncaught through
`_get_valid_token`, and `_make_request` surfaces it as an exception
rather than a structured error value. -/
theorem claim_c4_refresh_contract :
    (∀ a b c d : String, refreshRequestParams a b c d =
      [("refresh_token", a), ("client_id", b), ("client_secret", c),
       ("redirect_uri", d), ("grant_type", "refresh_token")]) ∧
    (∀ (now : Int) (tok : Nat) (expIn : Option Int) (s : SeqState),
      refreshToken now (RefreshRes.ok tok expIn) s =
        (Except.ok tok,
         { s with refreshCount := s.refreshCount + 1,
                  authToken := some tok,
                  tokenExpiresAt := now + expIn.getD 3600,
                  shared := some (tok, now + expIn.getD 3600) })) ∧
    (∀ (now : Int) (tok : Nat) (s : SeqState),
      (refreshToken now (RefreshRes.ok tok none) s).2.tokenExpiresAt = now + 3600) ∧
    (∀ (now : Int) (c : Nat) (s : SeqState),
      refreshToken now (RefreshRes.errStatus c) s =
        (Except.error (RefreshErr.httpStatus c),
         { s with refreshCount := s.refreshCount + 1 })) ∧
    (∀ (now : Int) (txt : String) (s : SeqState),
      refreshToken now (RefreshRes.errNoToken txt) s =
        (Except.error (RefreshErr.missingAccessToken txt),
         { s with refreshCount := s.refreshCount + 1 })) ∧
    (∀ (now : Int) (renv : Nat → RefreshRes) (s : SeqState),
      readCaches now s = none →
      getValidToken now renv s = refreshToken now (renv s.refreshCount) s) ∧
    (∀ (mr : Nat) (now : Int) (renv : Nat → RefreshRes) (env : Nat → Outcome)
       (method endpoint : String) (rc : Nat) (s : SeqState) (e : RefreshErr)
       (s1 : SeqState),
      getValidToken now renv s = (Except.error e, s1) →
      makeRequest mr now renv env method endpoint rc s = (MRes.exc e, s1)) := by
  refine ⟨fun a b c d => rfl, ?_, ?_, ?_, ?_, ?_, ?_⟩
  · intro now tok expIn s
    rfl
  · intro now tok s
    rfl
  · intro now c s
    rfl
  · intro now txt s
    rfl
  · intro now renv s h
    unfold getValidToken
    rw [h]
  · intro mr now renv env method endpoint rc s e s1 h
    rw [makeRequest, h]

/-- Claim C4 witness: a concrete failed refresh (HTTP 500 from the token
endpoint) on an empty cache propagates as an exception through
`_make_request`. -/
theorem claim_c4_refresh_contract_witness :
    makeRequest 3 0 (fun _ => RefreshRes.errStatus 500)
        (fun _ => Outcome.otherExc ("x")) "GET" "/p" 0 initState =
      (MRes.exc (RefreshErr.httpStatus 500),
       { initState with refreshCount := 1 }) :=
  claim_c4_refresh_contract.2.2.2.2.2.2 3 0 (fun _ => RefreshRes.errStatus 500)
    (fun _ => Outcome.otherExc ("x")) "GET" "/p" 0 initState
    (RefreshErr.httpStatus 500) { initState with refreshCount := 1 }
    (by simp [getValidToken, readCaches, readShared, refreshToken, initState])

/-- Claim C5: an attempt receiving a 401 with retry budget left clears
the local and shared cached token and re-invokes the full request with
`retry_count + 1`; a call receiving 401 on attempt 1 and 200 on attempt
2 returns the attempt-2 payload with exactly one extra refresh between
the attempts; any other HTTP status error (or a 401 with exhausted
budget) immediately returns `{"error": "HTTP <status>: <body>"}` with
no retry and no backoff sleep. -/
theorem claim_c5_401_retry_policy :
    (∀ (btext : String) (body : JValue),
      makeRequest 3 0 (fun k => RefreshRes.ok (100 + k) none)
          (fun k => if k = 0 then Outcome.statusErr 401 btext else Outcome.success body)
          "GET" "/p" 0 initState =
        (MRes.ok body, c5FinalState)) ∧
    (∀ (mr : Nat) (now : Int) (renv : Nat → RefreshRes) (env : Nat → Outcome)
       (method endpoint : String) (rc : Nat) (s : SeqState) (tok : Nat)
       (s1 : SeqState) (btext : String),
      getValidToken now renv s = (Except.ok tok, s1) →
      supportedMethod method = true →
      env s1.attempts = Outcome.statusErr 401 btext →
      rc < mr →
      makeRequest mr now renv env method endpoint rc s =
        ((makeRequest mr now renv env method endpoint (rc + 1)
            (invalidatedRetryState endpoint s1)).1,
         { (makeRequest mr now renv env method endpoint (rc + 1)
              (invalidatedRetryState endpoint s1)).2
            with endCalls :=
              (makeRequest mr now renv env method endpoint (rc + 1)
                (invalidatedRetryState endpoint s1)).2.endCalls ++ [false] })) ∧
    (∀ (mr : Nat) (now : Int) (renv : Nat → RefreshRes) (env : Nat → Outcome)
       (method endpoint : String) (rc : Nat) (s : SeqState) (tok : Nat)
       (s1 : SeqState) (code : Nat) (btext : String),
      getValidToken now renv s = (Except.ok tok, s1) →
      supportedMethod method = true →
      env s1.attempts = Outcome.statusErr code btext →
      ¬ (code = 401 ∧ rc < mr) →
      makeRequest mr now renv env method endpoint rc s =
        (MRes.ok (errObj ("HTTP " ++ toString code ++ ": " ++ btext)),
         attemptFailFinalState endpoint s1)) := by
  refine ⟨?_, ?_, ?_⟩
  · intro btext body
    simp [makeRequest, getValidToken, readCaches, readShared, refreshToken, tokenFresh,
      initState, supportedMethod, c5FinalState]
    constructor
  · intro mr now renv env method endpoint rc s tok s1 btext h1 hm h2 hrc
    exact makeRequest_401_retry mr now renv env method endpoint rc s tok s1 btext
      h1 hm h2 hrc
  · intro mr now renv env method endpoint rc s tok s1 code btext h1 hm h2 hc
    exact makeRequest_statusErr_final mr now renv env method endpoint rc s tok s1
      code btext h1 hm h2 hc

/-- Claim C5 witness: a 404 response is returned as a structured error
with no retry. -/
theorem claim_c5_401_retry_policy_witness :
    makeRequest 3 0 (fun k => RefreshRes.ok (100 + k) none)
        (fun _ => Outcome.statusErr 404 ("missing")) "GET" "/p" 0 initState =
      (MRes.ok (errObj ("HTTP " ++ toString 404 ++ ": " ++ "missing")),
       attemptFailFinalState ("/p")
         { initState with authToken := some 100, tokenExpiresAt := 3600,
                          shared := some (100, 3600), refreshCount := 1 }) :=
  claim_c5_401_retry_policy.2.2 3 0 (fun k => RefreshRes.ok (100 + k) none)
    (fun _ => Outcome.statusErr 404 ("missing")) "GET" "/p" 0 initState 100
    { initState with authToken := some 100, tokenExpiresAt := 3600,
                     shared := some (100, 3600), refreshCount := 1 }
    404 ("missing")
    (by simp [getValidToken, readCaches, readShared, refreshToken, initState])
    rfl rfl (by omega)

/-- Claim C6: a network-error attempt with retry budget left sleeps
exactly `2 ^ retry_count` seconds and retries with `retry_count + 1`
(so successive retries sleep 1s, 2s, 4s); with `max_retries = 2` and
every attempt failing with a network error, exactly 3 attempts are made
and the call returns `{"error": "Request failed: <detail>"}` without
raising; with `max_retries = 3` the sleeps are exactly 1s, 2s, 4s over
4 attempts. -/
theorem claim_c6_backoff_and_exhaustion :
    (∀ (mr : Nat) (now : Int) (renv : Nat → RefreshRes) (env : Nat → Outcome)
       (method endpoint : String) (rc : Nat) (s : SeqState) (tok : Nat)
       (s1 : SeqState) (msg : String),
      getValidToken now renv s = (Except.ok tok, s1) →
      supportedMethod method = true →
      env s1.attempts = Outcome.netErr msg →
      rc < mr →
      makeRequest mr now renv env method endpoint rc s =
        ((makeRequest mr now renv env method endpoint (rc + 1)
            (backoffRetryState endpoint rc s1)).1,
         { (makeRequest mr now renv env method endpoint (rc + 1)
              (backoffRetryState endpoint rc s1)).2
            with endCalls :=
              (makeRequest mr now renv env method endpoint (rc + 1)
                (backoffRetryState endpoint rc s1)).2.endCalls ++ [false] })) ∧
    (∀ msg : String,
      makeRequest 2 0 (fun k => RefreshRes.ok (100 + k) none)
          (fun _ => Outcome.netErr msg) "GET" "/x" 0 initState =
        (MRes.ok (errObj ("Request failed: " ++ msg)), c6FinalState)) ∧
    (∀ msg : String,
      (makeRequest 3 0 (fun k => RefreshRes.ok (100 + k) none)
          (fun _ => Outcome.netErr msg) "GET" "/x" 0 initState).2.sleeps = [1, 2, 4] ∧
      (makeRequest 3 0 (fun k => RefreshRes.ok (100 + k) none)
          (fun _ => Outcome.netErr msg) "GET" "/x" 0 initState).2.attempts = 4) := by
  refine ⟨?_, ?_, ?_⟩
  · intro mr now renv env method endpoint rc s tok s1 msg h1 hm h2 hrc
    exact makeRequest_netErr_retry mr now renv env method endpoint rc s tok s1 msg
      h1 hm h2 hrc
  · intro msg
    simp [makeRequest, getValidToken, readCaches, readShared, refreshToken, tokenFresh,
      initState, supportedMethod, c6FinalState]
    constructor
  · intro msg
    constructor <;>
      simp [makeRequest, getValidToken, readCaches, readShared, refreshToken, tokenFresh,
        initState, supportedMethod]

/-- Claim C6 witness: with the budget exhausted (retry_count already at
max_retries), a network error returns the structured error at once. -/
theorem claim_c6_backoff_and_exhaustion_witness :
    makeRequest 2 0 (fun k => RefreshRes.ok (100 + k) none)
        (fun _ => Outcome.netErr ("down")) "GET" "/x" 0 initState =
      (MRes.ok (errObj ("Request failed: down")), c6FinalState) :=
  claim_c6_backoff_and_exhaustion.2.1 ("down")

/-- Claim C7: across any `_make_request` call the number of
`end_api_call` events grows by exactly the number of physical attempts,
on every exit path; on a 2xx exit the event carries success flag true,
on a failing attempt false, and the event fires even when the exit path
is a propagating exception. -/
theorem claim_c7_end_event_per_attempt :
    (∀ (mr : Nat) (now : Int) (renv : Nat → RefreshRes) (env : Nat → Outcome)
       (method endpoint : String) (rc : Nat) (s : SeqState),
      (makeRequest mr now renv env method endpoint rc s).2.endCalls.length + s.attempts =
        (makeRequest mr now renv env method endpoint rc s).2.attempts +
          s.endCalls.length) ∧
    (makeRequest 1 0 (fun k => if k = 0 then RefreshRes.ok 100 none
          else RefreshRes.errStatus 500)
        (fun _ => Outcome.statusErr 401 ("expired")) "GET" "/p" 0 initState =
      (MRes.exc (RefreshErr.httpStatus 500), c7ExcFinalState)) ∧
    (∀ body : JValue,
      makeRequest 3 0 (fun k => RefreshRes.ok (100 + k) none)
          (fun _ => Outcome.success body) "GET" "/p" 0 initState =
        (MRes.ok body, c7OkFinalState)) := by
  refine ⟨?_, ?_, ?_⟩
  · intro mr now renv env method endpoint rc s
    exact makeRequest_endCalls mr now renv env method endpoint rc s
  · simp [makeRequest, getValidToken, readCaches, readShared, refreshToken, tokenFresh,
      initState, supportedMethod, c7ExcFinalState]
    rfl
  · intro body
    simp [makeRequest, getValidToken, readCaches, readShared, refreshToken, tokenFresh,
      initState, supportedMethod, c7OkFinalState]
    constructor

/-- Claim C9: the metrics-label sanitization strips 18-digit path
segments both mid-path and trailing, so endpoints differing only in the
resource ID collapse to one label, endpoints without such a segment are
unchanged, and the HTTP request itself is always dispatched to the
original endpoint (the sanitized form is used only for metrics labels).
-/
theorem claim_c9_id_sanitization :
    cleanEndpoint ("/patients/123456789012345678/vitals") = "/patients/vitals" ∧
    cleanEndpoint ("/patients/987654321098765432/vitals") = "/patients/vitals" ∧
    cleanEndpoint ("/facilities") = "/facilities" ∧
    cleanEndpoint ("/patients/123456789012345678") = "/patients" ∧
    (∀ (mr : Nat) (now : Int) (renv : Nat → RefreshRes) (env : Nat → Outcome)
       (method endpoint : String) (rc : Nat) (s : SeqState), ∃ a b,
      (makeRequest mr now renv env method endpoint rc s).2.httpEndpoints =
        s.httpEndpoints ++ List.replicate a endpoint ∧
      (makeRequest mr now renv env method endpoint rc s).2.metricLabels =
        s.metricLabels ++ List.replicate b (cleanEndpoint endpoint)) := by
  refine ⟨rfl, rfl, rfl, rfl, ?_⟩
  intro mr now renv env method endpoint rc s
  exact makeRequest_routes mr now renv env method endpoint rc s

/-- Claim C10: a `_make_request` call with an unsupported HTTP verb
(once token acquisition succeeds) returns the structured error
`{"error": "Unexpected error: Unsupported HTTP method: <method>"}`
instead of raising: the internal `ValueError` is caught by the generic
handler; no HTTP dispatch happens, but the metrics events still fire. -/
theorem claim_c10_unsupported_method (mr : Nat) (now : Int)
    (renv : Nat → RefreshRes) (env : Nat → Outcome) (method endpoint : String)
    (rc : Nat) (s : SeqState) (tok : Nat) (s1 : SeqState)
    (h1 : getValidToken now renv s = (Except.ok tok, s1))
    (hne : method ≠ "GET" ∧ method ≠ "POST" ∧ method ≠ "PUT" ∧ method ≠ "DELETE") :
    makeRequest mr now renv env method endpoint rc s =
      (MRes.ok (errObj ("Unexpected error: Unsupported HTTP method: " ++ method)),
       { s1 with attempts := s1.attempts + 1,
                 metricLabels := s1.metricLabels ++ [cleanEndpoint endpoint],
                 records := s1.records ++ [false],
                 endCalls := s1.endCalls ++ [false] }) := by
  have hm : supportedMethod method = false := by
    simp [supportedMethod, hne.1, hne.2.1, hne.2.2.1, hne.2.2.2]
  rw [makeRequest, h1]
  simp [hm]

/-- Claim C10 witness: a PATCH request returns the structured
unsupported-method error. -/
theorem claim_c10_unsupported_method_witness :
    makeRequest 3 0 (fun k => RefreshRes.ok (100 + k) none)
        (fun _ => Outcome.otherExc ("x")) "PATCH" "/p" 0 initState =
      (MRes.ok (errObj ("Unexpected error: Unsupported HTTP method: " ++ "PATCH")),
       { { initState with authToken := some 100, tokenExpiresAt := 3600,
                          shared := some (100, 3600), refreshCount := 1 }
          with attempts := 1,
               metricLabels := [cleanEndpoint ("/p")],
               records := [false],
               endCalls := [false] }) :=
  claim_c10_unsupported_method 3 0 (fun k => RefreshRes.ok (100 + k) none)
    (fun _ => Outcome.otherExc ("x")) "PATCH" "/p" 0 initState 100
    { initState with authToken := some 100, tokenExpiresAt := 3600,
                     shared := some (100, 3600), refreshCount := 1 }
    (by simp [getValidToken, readCaches, readShared, refreshToken, initState])
    (by refine ⟨?_, ?_, ?_, ?_⟩ <;> decide)

/-- Claim C1: in every reachable interleaving of N concurrent
`_get_valid_token` calls sharing one identity with no cached token, at
most one refresh is in flight at any time; all finished callers hold
the same token; and once every caller has finished, exactly one network
refresh has occurred and every caller returned the token produced by
that single refresh. -/
theorem claim_c1_single_refresh (n : Nat) (s : CState n)
    (hreach : CReachable s) (hn : 0 < n) :
    (∀ i j : Fin n, s.pcs i = CPC.refreshing → s.pcs j = CPC.refreshing → i = j) ∧
    s.refreshes ≤ 1 ∧
    (∀ (i j : Fin n) (ti tj : Nat),
      s.pcs i = CPC.done ti → s.pcs j = CPC.done tj → ti = tj) ∧
    ((∀ i : Fin n, ∃ t, s.pcs i = CPC.done t) →
      s.refreshes = 1 ∧ ∀ i : Fin n, s.pcs i = CPC.done 0) := by
  obtain ⟨hlock, hcache, hrefr, hdone⟩ := cReachable_inv hreach
  refine ⟨?_, ?_, ?_, ?_⟩
  · intro i j hi hj
    have h1 := hlock i (Or.inr hi)
    have h2 := hlock j (Or.inr hj)
    rw [h1] at h2
    exact Option.some_injective _ h2
  · rcases hcache with ⟨_, h⟩ | ⟨_, h⟩ <;> omega
  · intro i j ti tj hi hj
    rw [(hdone i ti hi).1, (hdone j tj hj).1]
  · intro hall
    have i0 : Fin n := ⟨0, hn⟩
    obtain ⟨t0, ht0⟩ := hall i0
    refine ⟨(hdone i0 t0 ht0).2, ?_⟩
    intro i
    obtain ⟨t, ht⟩ := hall i
    rw [← (hdone i t ht).1]
    exact ht

theorem c1FinalState_reachable : CReachable c1FinalState := by
  show Relation.ReflTransGen CStep (cInit 1) c1FinalState
  have h0 : Relation.ReflTransGen CStep (cInit 1) (cInit 1) :=
    Relation.ReflTransGen.refl
  have h1 := Relation.ReflTransGen.tail h0
    (CStep.cacheMiss (cInit 1) 0 (by decide) (by decide))
  have h2 := Relation.ReflTransGen.tail h1
    (CStep.acquire _ 0 (by decide) (by decide))
  have h3 := Relation.ReflTransGen.tail h2
    (CStep.lockCacheMiss _ 0 (by decide) (by decide))
  have h4 := Relation.ReflTransGen.tail h3
    (CStep.refreshDone _ 0 (by decide))
  convert h4 using 1
  ext i
  · rfl
  · rfl
  · rfl
  · have hi : i = 0 := Subsingleton.elim i 0
    subst hi
    rfl

/-- Claim C1 witness: a complete single-caller run reaches the terminal
state, where exactly one refresh happened and the caller returned its
token. -/
theorem claim_c1_single_refresh_witness :
    c1FinalState.refreshes = 1 ∧ ∀ i : Fin 1, c1FinalState.pcs i = CPC.done 0 :=
  (claim_c1_single_refresh 1 c1FinalState c1FinalState_reachable (by omega)).2.2.2
    (fun _ => ⟨0, rfl⟩)

/-- Claim C8: `_is_successful_response` classifies a dict as successful
iff it has no "error" key, no error-indicating "code" (string containing
"error" case-insensitively, or int >= 400), and no "error"/"failed"/
"failure" keyword in a string "message" field; `{"patients": ...}` is a
success while `{"error": "x"}`, `{"code": "404_error"}` and
`{"message": "operation failed"}` are failures (and a non-dict is never
a success). -/
theorem claim_c8_success_classification :
    (∀ es : List (String × PyVal),
      isSuccessfulResponse (PyResponse.dict es) = true ↔
        (es.lookup ("error") = none ∧
         (∀ c : String, es.lookup ("code") = some (PyVal.str c) →
            strContains (lowerStr c) ("error") = false) ∧
         (∀ n : Int, es.lookup ("code") = some (PyVal.int n) → n < 400) ∧
         (∀ m : String, (es.lookup ("message")).getD (PyVal.str ("")) = PyVal.str m →
            (strContains (lowerStr m) ("error") = false ∧
             strContains (lowerStr m) ("failed") = false ∧
             strContains (lowerStr m) ("failure") = false)))) ∧
    isSuccessfulResponse PyResponse.nonDict = false ∧
    isSuccessfulResponse (PyResponse.dict [("patients", PyVal.other)]) = true ∧
    isSuccessfulResponse (PyResponse.dict [("error", PyVal.str ("x"))]) = false ∧
    isSuccessfulResponse (PyResponse.dict [("code", PyVal.str ("404_error"))]) = false ∧
    isSuccessfulResponse
      (PyResponse.dict [("message", PyVal.str ("operation failed"))]) = false := by
  refine ⟨?_, by decide, by decide, by decide, by decide, by decide⟩
  intro es
  have e0 : strContains (lowerStr ("")) ("error") = false := by decide
  have f0 : strContains (lowerStr ("")) ("failed") = false := by decide
  have g0 : strContains (lowerStr ("")) ("failure") = false := by decide
  unfold isSuccessfulResponse
  rcases h1 : es.lookup ("error") with _ | v1
  · rcases h2 : es.lookup ("code") with _ | v2
    · rcases h3 : es.lookup ("message") with _ | v3
      · simp [h1, h2, h3, e0, f0, g0]
      · rcases v3 with m | nv | _ <;> simp [h1, h2, h3, e0, f0, g0]
        by_cases he : strContains (lowerStr m) ("error") = true <;>
          by_cases hf : strContains (lowerStr m) ("failed") = true <;>
          by_cases hg : strContains (lowerStr m) ("failure") = true <;>
          simp [he, hf, hg]
    · rcases v2 with c | nv | _
      · by_cases hc : strContains (lowerStr c) ("error") = true
        · simp [h1, h2, hc]
        · rcases h3 : es.lookup ("message") with _ | v3
          · simp [h1, h2, h3, hc, e0, f0, g0]
          · rcases v3 with m | nv | _ <;> simp [h1, h2, h3, hc, e0, f0, g0]
            by_cases he : strContains (lowerStr m) ("error") = true <;>
              by_cases hf : strContains (lowerStr m) ("failed") = true <;>
              by_cases hg : strContains (lowerStr m) ("failure") = true <;>
              simp [he, hf, hg]
      · by_cases hn : (400 : Int) ≤ nv
        · simp [h1, h2, hn]
        · have hnv : nv < 400 := by omega
          rcases h3 : es.lookup ("message") with _ | v3
          · simp [h1, h2, h3, hn, hnv, e0, f0, g0]
          · rcases v3 with m | nv2 | _ <;> simp [h1, h2, h3, hn, hnv, e0, f0, g0]
            by_cases he : strContains (lowerStr m) ("error") = true <;>
              by_cases hf : strContains (lowerStr m) ("failed") = true <;>
              by_cases hg : strContains (lowerStr m) ("failure") = true <;>
              simp [he, hf, hg]
      · rcases h3 : es.lookup ("message") with _ | v3
        · simp [h1, h2, h3, e0, f0, g0]
        · rcases v3 with m | nv | _ <;> simp [h1, h2, h3, e0, f0, g0]
          by_cases he : strContains (lowerStr m) ("error") = true <;>
            by_cases hf : strContains (lowerStr m) ("failed") = true <;>
            by_cases hg : strContains (lowerStr m) ("failure") = true <;>
            simp [he, hf, hg]
  · simp [h1]
